import Mathlib

/-!
Verification of the Chorus workflow engine core
(`services/workflow-engine/services/engine.go`, `executor.go`,
`models/workflow.go`) against its natural-language specification.

The Go code is shallowly embedded: JSON values (`interface{}` after
`encoding/json` unmarshalling) become the inductive `Value`; the GORM rows
become structures; database writes are modelled as pure state updates that
always succeed (the spec's "assuming durable-store writes succeed"); the
wall clock becomes an explicit `Nat` parameter; the orchestration loop
becomes a fuel-indexed recursion; the scheduler's goroutine interleavings
become a small-step transition relation.
-/

namespace Chorus

/-- A JSON value as produced by Go's `encoding/json` into `interface{}`:
`nil`, `bool`, `float64`, `string`, `[]interface{}`, `map[string]interface{}`.
The `float64` payload is modelled by `Rat`; the engine performs no numeric
arithmetic on it, only `>` / `<` comparisons. -/
inductive Value where
  | null : Value
  | bool (b : Bool) : Value
  | num (q : Rat) : Value
  | str (s : String) : Value
  | arr (elems : List Value) : Value
  | obj (fields : List (String × Value)) : Value

mutual

/-- Go interface equality (`value == condition.Value`) on JSON values.
For comparable dynamic types Go compares type and payload; the embedding
compares constructors and payloads structurally. -/
def Value.beq : Value → Value → Bool
  | .null, .null => true
  | .bool a, .bool b => a == b
  | .num a, .num b => a == b
  | .str a, .str b => a == b
  | .arr a, .arr b => Value.beqList a b
  | .obj a, .obj b => Value.beqObj a b
  | _, _ => false

def Value.beqList : List Value → List Value → Bool
  | [], [] => true
  | a :: as2, b :: bs => Value.beq a b && Value.beqList as2 bs
  | _, _ => false

def Value.beqObj : List (String × Value) → List (String × Value) → Bool
  | [], [] => true
  | (k1, v1) :: as2, (k2, v2) :: bs => k1 == k2 && Value.beq v1 v2 && Value.beqObj as2 bs
  | _, _ => false

end

/-- Go type assertion `.(string)`. -/
def Value.asString : Value → Option String
  | .str s => some s
  | _ => none

/-- Go type assertion `.(float64)`. -/
def Value.asNumber : Value → Option Rat
  | .num q => some q
  | _ => none

/-- Go type assertion `.([]interface{})`. -/
def Value.asArray : Value → Option (List Value)
  | .arr xs => some xs
  | _ => none

/-- Go type assertion `.(map[string]interface{})`. -/
def Value.asObject : Value → Option (List (String × Value))
  | .obj fields => some fields
  | _ => none

def Value.isNum : Value → Bool
  | .num _ => true
  | _ => false

def Value.isStr : Value → Bool
  | .str _ => true
  | _ => false

/-- A `map[string]interface{}` (the `models.JSONB` type), as an association
list; `lookupVar` is Go's comma-ok map read `v, exists := m[k]`. -/
abbrev JSONB := List (String × Value)

def lookupVar (vars : JSONB) (key : String) : Option Value :=
  match vars with
  | [] => none
  | (k, v) :: rest => if k = key then some v else lookupVar rest key

/-- Go map assignment `m[k] = v`. -/
def setVar (vars : JSONB) (key : String) (v : Value) : JSONB :=
  match vars with
  | [] => [(key, v)]
  | (k, w) :: rest => if k = key then (key, v) :: rest else (k, w) :: setVar rest key v

/-- `models.WorkflowStatus` (the six constants assigned by the engine and
the HTTP handlers). -/
inductive WorkflowStatus where
  | pending | running | completed | failed | cancelled | paused
deriving DecidableEq, Repr

/-- The string payload of each `WorkflowStatus` constant, used in error
messages such as `"workflow instance status changed to %s"`. -/
def WorkflowStatus.toName : WorkflowStatus → String
  | .pending => "pending"
  | .running => "running"
  | .completed => "completed"
  | .failed => "failed"
  | .cancelled => "cancelled"
  | .paused => "paused"

/-- `models.StepStatus`. -/
inductive StepStatus where
  | pending | running | completed | failed | skipped
deriving DecidableEq, Repr

/-- `models.StepType` is `type StepType string`: any string can appear in a
JSON schema, so it is modelled as `String` ("action", "condition",
"parallel", "wait", "subflow", or anything else for the unsupported case). -/
abbrev StepType := String

/-- `models.StepCondition`. -/
structure StepCondition where
  field : String
  operator : String
  value : Value

/-- `models.RetryPolicy` (`MaxRetries int`, `Delay int`; both are
non-negative in every use). -/
structure RetryPolicy where
  maxRetries : Nat
  delay : Nat

/-- `models.WorkflowStepDefinition`. -/
structure WorkflowStepDefinition where
  id : String
  name : String
  type : StepType
  config : JSONB
  nextSteps : List String
  conditions : List StepCondition
  retryPolicy : Option RetryPolicy

/-- `models.WorkflowSchema` is a list of step definitions. -/
abbrev WorkflowSchema := List WorkflowStepDefinition

/-- `models.WorkflowInstance` row (instance ids abstracted to `Nat`;
timestamps to `Nat`). -/
structure WorkflowInstance where
  id : Nat
  status : WorkflowStatus
  vars : JSONB
  currentStep : String
  errorMessage : String
  startedAt : Option Nat
  completedAt : Option Nat

/-- `models.WorkflowStep` row. `errorData` is a nil-able JSONB column. -/
structure WorkflowStep where
  instanceID : Nat
  stepID : String
  stepType : StepType
  status : StepStatus
  inputData : JSONB
  outputData : JSONB
  errorData : Option JSONB
  startedAt : Option Nat
  completedAt : Option Nat
  retryCount : Nat

/-- `services.StepResult`: `Error` is a plain Go string, `""` when absent. -/
structure StepResult where
  success : Bool
  data : JSONB
  error : String

/-- `Executor.evaluateCondition` (executor.go:384-416).  Absent field ⇒
`false`; `gt`/`lt` require both operands to be `float64`; `contains`
requires both to be `string`; unknown operators fall through to `false`. -/
def evaluateCondition (condition : StepCondition) (vars : JSONB) : Bool :=
  match lookupVar vars condition.field with
  | none => false
  | some value =>
    match condition.operator with
    | "eq" | "equals" => Value.beq value condition.value
    | "ne" | "not_equals" => !(Value.beq value condition.value)
    | "gt" | "greater_than" =>
      match value.asNumber, condition.value.asNumber with
      | some vFloat, some cFloat => decide (vFloat > cFloat)
      | _, _ => false
    | "lt" | "less_than" =>
      match value.asNumber, condition.value.asNumber with
      | some vFloat, some cFloat => decide (vFloat < cFloat)
      | _, _ => false
    | "contains" =>
      match value.asString, condition.value.asString with
      | some vStr, some cStr => decide (cStr.data <:+: vStr.data)
      | _, _ => false
    | _ => false

/-- The `for`/`range` body of `executeConditionStep` (executor.go:136-142):
return the failure result at the first condition that does not hold,
the success result after the loop otherwise. -/
def evalConditionList (conditions : List StepCondition) (vars : JSONB) : StepResult :=
  match conditions with
  | [] => { success := true, data := [("reason", .str "all conditions met")], error := "" }
  | condition :: rest =>
    if evaluateCondition condition vars then evalConditionList rest vars
    else { success := false, data := [("reason", .str "condition not met")], error := "" }

/-- `Executor.executeConditionStep` (executor.go:129-143).  An empty
condition list short-circuits to a failure result carrying the error text;
the Go function never returns a non-nil `error`, hence always `.ok`. -/
def executeConditionStep (stepDef : WorkflowStepDefinition) (vars : JSONB) :
    Except String StepResult :=
  if stepDef.conditions.isEmpty then
    .ok { success := false, data := [], error := "no conditions defined" }
  else
    .ok (evalConditionList stepDef.conditions vars)

/-- `Engine.determineNextStep` (engine.go / part_006:295-319).  `""` is the
Go sentinel for "end of workflow".  A single `next_steps` entry is returned
before any condition logic is consulted; with two or more entries a
condition step picks index 0 on success and index 1 on failure, and every
other type defaults to index 0. -/
def determineNextStep (stepDef : WorkflowStepDefinition) (result : StepResult) : String :=
  match stepDef.nextSteps with
  | [] => ""
  | [next] => next
  | n0 :: n1 :: _ =>
    if stepDef.type = "condition" then
      if result.success then n0 else n1
    else n0

/-- Config read combined with a type assertion, e.g.
`url, ok := stepDef.Config["url"].(string)`: a missing key gives a nil
interface, whose assertion also yields `ok = false`. -/
def configString (config : JSONB) (key : String) : Option String :=
  (lookupVar config key).bind Value.asString

def configNumber (config : JSONB) (key : String) : Option Rat :=
  (lookupVar config key).bind Value.asNumber

def configArray (config : JSONB) (key : String) : Option (List Value) :=
  (lookupVar config key).bind Value.asArray

def configObject (config : JSONB) (key : String) : Option JSONB :=
  (lookupVar config key).bind Value.asObject

/-- `Executor.executeHTTPRequest` (executor.go:237-261): the request itself
is simulated by the source (fixed 200/"OK" response after a sleep). -/
def executeHTTPRequest (stepDef : WorkflowStepDefinition) : Except String StepResult :=
  match configString stepDef.config "url" with
  | none => .error "url not specified for HTTP request"
  | some url =>
    let method := (configString stepDef.config "method").getD "GET"
    .ok { success := true,
          data := [("method", .str method), ("url", .str url),
                   ("status_code", .num 200), ("response", .str "OK")],
          error := "" }

/-- `Executor.executeSendEmail` (executor.go:264-285): `subject` and `body`
default to `""` via the two-value assertion with `_`. -/
def executeSendEmail (stepDef : WorkflowStepDefinition) : Except String StepResult :=
  match configString stepDef.config "to" with
  | none => .error "to address not specified for email"
  | some toAddr =>
    let subject := (configString stepDef.config "subject").getD ""
    .ok { success := true,
          data := [("to", .str toAddr), ("subject", .str subject), ("sent", .bool true)],
          error := "" }

/-- `Executor.executeLogMessage` (executor.go:288-319): `level` defaults to
`"info"`; logging itself has no modelled effect. -/
def executeLogMessage (stepDef : WorkflowStepDefinition) : Except String StepResult :=
  match configString stepDef.config "message" with
  | none => .error "message not specified for log action"
  | some message =>
    let level := (configString stepDef.config "level").getD "info"
    .ok { success := true,
          data := [("message", .str message), ("level", .str level), ("logged", .bool true)],
          error := "" }

/-- `Executor.executeUpdateVariables` (executor.go:322-350): merges the
`updates` map into the instance's variables (in memory and in the store,
the latter assumed to succeed). Returns the updated variables alongside
the result. -/
def executeUpdateVariables (stepDef : WorkflowStepDefinition) (vars : JSONB) :
    Except String (StepResult × JSONB) :=
  match configObject stepDef.config "updates" with
  | none => .error "updates not specified for update variables action"
  | some updates =>
    let newVars := updates.foldl (fun acc kv => setVar acc kv.1 kv.2) vars
    .ok ({ success := true, data := [("updated_variables", .obj updates)], error := "" },
         newVars)

/-- `Executor.executeActionStep` (executor.go:108-126): dispatch on the
`action` config string.  Only `update_variables` touches the instance's
variables; the other actions return them unchanged. -/
def executeActionStep (stepDef : WorkflowStepDefinition) (vars : JSONB) :
    Except String (StepResult × JSONB) :=
  match configString stepDef.config "action" with
  | none => .error "action not specified in step config"
  | some action =>
    match action with
    | "http_request" => (executeHTTPRequest stepDef).map (fun r => (r, vars))
    | "send_email" => (executeSendEmail stepDef).map (fun r => (r, vars))
    | "log_message" => (executeLogMessage stepDef).map (fun r => (r, vars))
    | "update_variables" => executeUpdateVariables stepDef vars
    | other => .error ("unsupported action: " ++ other)

/-- `Executor.executeParallelStep` (executor.go:146-175): the source only
simulates the sub-tasks (sequential sleeps), records a `completed` entry
per sub-task and returns `allSuccess = true` unconditionally. -/
def executeParallelStep (stepDef : WorkflowStepDefinition) : Except String StepResult :=
  match configArray stepDef.config "parallel_steps" with
  | none => .error "parallel_steps not defined"
  | some parallelSteps =>
    let results := parallelSteps.enum.map fun iv =>
      ("parallel_" ++ toString iv.1,
       Value.obj [("status", .str "completed"), ("data", iv.2)])
    .ok { success := true, data := results, error := "" }

/-- `Executor.executeWaitStep` (executor.go:178-211).  The `duration` case
sleeps then succeeds.  The `event` case in the source does NOT wait for a
bus event: it sleeps one second and returns success ("For demo purposes,
simulate waiting for an event"), so the step completes immediately. -/
def executeWaitStep (stepDef : WorkflowStepDefinition) : Except String StepResult :=
  match configString stepDef.config "wait_type" with
  | none => .error "wait_type not specified"
  | some waitType =>
    match waitType with
    | "duration" =>
      match configNumber stepDef.config "duration" with
      | none => .error "duration not specified for duration wait"
      | some durationSec =>
        .ok { success := true, data := [("waited", .num durationSec)], error := "" }
    | "event" =>
      match configString stepDef.config "event" with
      | none => .error "event not specified for event wait"
      | some eventName =>
        .ok { success := true, data := [("event", .str eventName)], error := "" }
    | other => .error ("unsupported wait type: " ++ other)

/-- `Executor.executeSubflowStep` (executor.go:214-234): simulated child
execution, unconditional success. -/
def executeSubflowStep (stepDef : WorkflowStepDefinition) : Except String StepResult :=
  match configString stepDef.config "subflow_id" with
  | none => .error "subflow_id not specified"
  | some subflowID =>
    .ok { success := true,
          data := [("subflow_id", .str subflowID), ("status", .str "completed")],
          error := "" }

/-- The `switch stepDef.Type` body of `ExecuteStep` (executor.go:62-75),
returning the `(result, err)` pair of the chosen executor together with
the possibly-updated instance variables. -/
def executeStepByType (stepDef : WorkflowStepDefinition) (vars : JSONB) :
    Except String (StepResult × JSONB) :=
  match stepDef.type with
  | "action" => executeActionStep stepDef vars
  | "condition" => (executeConditionStep stepDef vars).map (fun r => (r, vars))
  | "parallel" => (executeParallelStep stepDef).map (fun r => (r, vars))
  | "wait" => (executeWaitStep stepDef).map (fun r => (r, vars))
  | "subflow" => (executeSubflowStep stepDef).map (fun r => (r, vars))
  | other => .error ("unsupported step type: " ++ other)

/-- The `First(&step, "instance_id = ? AND step_id = ?")` query. -/
def findWorkflowStep (steps : List WorkflowStep) (instanceID : Nat) (stepID : String) :
    Option WorkflowStep :=
  match steps with
  | [] => none
  | s :: rest =>
    if s.instanceID = instanceID ∧ s.stepID = stepID then some s
    else findWorkflowStep rest instanceID stepID

/-- `Executor.createOrUpdateStep` (executor.go:354-382): reuse the existing
row for `(instance, step id)` whatever its status, else create a fresh
`pending` row whose input data snapshots the step config (the JSON
marshal/unmarshal round-trip is the identity here). -/
def createOrUpdateStep (instanceID : Nat) (stepDef : WorkflowStepDefinition)
    (steps : List WorkflowStep) : WorkflowStep :=
  match findWorkflowStep steps instanceID stepDef.id with
  | some step => step
  | none =>
    { instanceID := instanceID
      stepID := stepDef.id
      stepType := stepDef.type
      status := .pending
      inputData := stepDef.config
      outputData := []
      errorData := none
      startedAt := none
      completedAt := none
      retryCount := 0 }

/-- The value `ExecuteStep` leaves behind: the saved step row, the
instance variables after execution, and the `(result, err)` return pair. -/
structure ExecOutcome where
  step : WorkflowStep
  vars : JSONB
  result : StepResult
  err : Option String

/-- `Executor.ExecuteStep` (executor.go:42-105), with store writes assumed
to succeed.  The step row is first marked `running` with `started_at`,
then the type dispatch runs; on executor error the row is saved `failed`
with `error_data` and the result is replaced by a failure result; on
success the row is saved `completed` with the result data as output. -/
def ExecuteStep (inst : WorkflowInstance) (stepDef : WorkflowStepDefinition)
    (steps : List WorkflowStep) (now : Nat) : ExecOutcome :=
  let step0 := createOrUpdateStep inst.id stepDef steps
  let step1 := { step0 with status := StepStatus.running, startedAt := some now }
  match executeStepByType stepDef inst.vars with
  | .error msg =>
    { step := { step1 with
                  status := StepStatus.failed
                  completedAt := some now
                  errorData := some [("error", .str msg)] }
      vars := inst.vars
      result := { success := false, data := [], error := msg }
      err := some msg }
  | .ok (result, newVars) =>
    { step := { step1 with
                  status := StepStatus.completed
                  completedAt := some now
                  outputData := result.data }
      vars := newVars
      result := result
      err := none }

/-- `Executor.HandleStepTimeout` (executor.go:439-468).  The source
declares `var retryPolicy *models.RetryPolicy` and never assigns it ("In a
real implementation, you would load this from the step definition"), so
the `retryPolicy != nil && retryCount < MaxRetries` retry branch is
unreachable and every timed-out step is marked `failed`.  The function
receives only the step row: the owning instance is never updated. -/
def HandleStepTimeout (step : WorkflowStep) (now : Nat) : WorkflowStep :=
  let retryPolicy : Option RetryPolicy := none
  match retryPolicy with
  | some policy =>
    if step.retryCount < policy.maxRetries then
      { step with
          retryCount := step.retryCount + 1
          status := StepStatus.pending
          startedAt := none
          completedAt := none
          errorData := none }
    else
      { step with
          status := StepStatus.failed
          completedAt := some now
          errorData := some [("error", .str "step timed out")] }
  | none =>
    { step with
        status := StepStatus.failed
        completedAt := some now
        errorData := some [("error", .str "step timed out")] }

/-- `Engine.findStepDefinition` (part_006:286-293): linear scan by id. -/
def findStepDefinition (steps : List WorkflowStepDefinition) (stepID : String) :
    Option WorkflowStepDefinition :=
  match steps with
  | [] => none
  | step :: rest => if step.id = stepID then some step else findStepDefinition rest stepID

/-- A `db.Save(step)` on the steps table: replace the row keyed by
`(instance_id, step_id)`, or append it if absent. -/
def saveStep (steps : List WorkflowStep) (s : WorkflowStep) : List WorkflowStep :=
  match steps with
  | [] => [s]
  | t :: rest =>
    if t.instanceID = s.instanceID ∧ t.stepID = s.stepID then s :: rest
    else t :: saveStep rest s

/-- `Engine.completeInstance` (part_006:340-348): unconditional update of
the row to `completed` with `completed_at = now`. -/
def completeInstance (inst : WorkflowInstance) (now : Nat) : WorkflowInstance :=
  { inst with status := WorkflowStatus.completed, completedAt := some now }

/-- `Engine.failInstance` (part_006:350-361): unconditional update of the
row to `failed` with `completed_at` and `error_message` — note there is no
"only if still running" guard. -/
def failInstance (inst : WorkflowInstance) (errorMsg : String) (now : Nat) :
    WorkflowInstance :=
  { inst with
      status := WorkflowStatus.failed
      completedAt := some now
      errorMessage := errorMsg }

/-- The durable state one orchestration loop reads and writes: the
instance row, its step rows, and (as instrumentation only) the ordered
trace of step ids handed to `ExecuteStep`. -/
structure EngineState where
  inst : WorkflowInstance
  steps : List WorkflowStep
  trace : List String

/-- Result of `executeWorkflow`: `ok` is the nil-error return (instance
completed), `errored` is a non-nil error returned to `processInstance`,
and `outOfFuel` is the embedding artifact for runs longer than the fuel
bound (the Go loop is unbounded). -/
inductive LoopResult where
  | ok
  | errored (msg : String)
  | outOfFuel
deriving DecidableEq, Repr

/-- The persisted instance status as seen at iteration `k`: `ext k` models
a concurrent Producer-API write to the status just before iteration `k`'s
`checkInstanceStatus` read (part_006:321-332); `none` means no external
write at that point. -/
def applyExternal (ext : Nat → Option WorkflowStatus) (k : Nat) (st : EngineState) :
    EngineState :=
  match ext k with
  | some s => { st with inst := { st.inst with status := s } }
  | none => st

/-- The `for` loop of `Engine.executeWorkflow` (part_006:187-229).  Each
iteration: apply any concurrent status write, check the persisted status
is still `running` (else return that status-change error), resolve the
step definition (else `step definition not found`), run `ExecuteStep`
(saving the step row and in-memory variables), return a wrapped error if
the executor errored — note `current_step` is NOT updated on that path —
otherwise persist `current_step`, resolve the next step id, complete the
instance on the `""` sentinel, and loop. -/
def workflowLoop (ext : Nat → Option WorkflowStatus) (schema : WorkflowSchema)
    (now : Nat) : Nat → Nat → EngineState → String → EngineState × LoopResult
  | 0, _, st, _ => (st, .outOfFuel)
  | fuel + 1, k, st, currentStepID =>
    let st1 : EngineState := applyExternal ext k st
    if st1.inst.status ≠ WorkflowStatus.running then
      (st1, .errored ("workflow instance status changed to " ++ st1.inst.status.toName))
    else
      match findStepDefinition schema currentStepID with
      | none => (st1, .errored ("step definition not found: " ++ currentStepID))
      | some stepDef =>
        let outcome := ExecuteStep st1.inst stepDef st1.steps now
        let st2 : EngineState :=
          { inst := { st1.inst with vars := outcome.vars }
            steps := saveStep st1.steps outcome.step
            trace := st1.trace ++ [currentStepID] }
        match outcome.err with
        | some msg => (st2, .errored ("step execution failed: " ++ msg))
        | none =>
          let st3 : EngineState :=
            { st2 with inst := { st2.inst with currentStep := currentStepID } }
          let nextStepID := determineNextStep stepDef outcome.result
          if nextStepID = "" then
            ({ st3 with inst := completeInstance st3.inst now }, .ok)
          else
            workflowLoop ext schema now fuel (k + 1) st3 nextStepID

/-- `Engine.executeWorkflow` (part_006:176-230): an empty schema completes
the instance at once; otherwise the loop starts at the persisted
`current_step`, falling back to the schema's first step when it is empty. -/
def executeWorkflow (ext : Nat → Option WorkflowStatus) (schema : WorkflowSchema)
    (now fuel : Nat) (st : EngineState) : EngineState × LoopResult :=
  match schema with
  | [] => ({ st with inst := completeInstance st.inst now }, LoopResult.ok)
  | firstStep :: _ =>
    let currentStepID :=
      if st.inst.currentStep = "" then firstStep.id else st.inst.currentStep
    workflowLoop ext schema now fuel 0 st currentStepID

/-- `Engine.processInstance` after the instance is loaded
(part_006:135-173): a non-`running` instance is skipped silently; a
workflow-execution error makes the engine call `failInstance` with the
error text; `outOfFuel` leaves the state as is (run still in progress). -/
def processInstance (ext : Nat → Option WorkflowStatus) (schema : WorkflowSchema)
    (now fuel : Nat) (st : EngineState) : EngineState :=
  if st.inst.status ≠ WorkflowStatus.running then st
  else
    match executeWorkflow ext schema now fuel st with
    | (st2, .ok) => st2
    | (st2, .errored msg) => { st2 with inst := failInstance st2.inst msg now }
    | (st2, .outOfFuel) => st2

/-! ## Scheduler concurrency (part_006:101-141)

`processQueue` is a single dispatcher goroutine pulling instance ids from
the buffered channel `e.queue`; for each id it reads the `e.instances`
sync.Map (`Load`) and, if the id is absent, spawns a `processInstance`
goroutine; the spawned goroutine's own first action is `instances.Store`,
and it deletes the key when it returns.  The interleavings of these
goroutines are modelled by the small-step relation `SchedStep`.  A worker
is "executing `processInstance`" from the moment its goroutine is spawned:
`spawnedWorkers` holds workers that have not yet executed their `Store`,
`activeWorkers` those past it. -/

abbrev InstanceID := Nat

/-- `sync.Map.Store key true`: set semantics on the key set. -/
def storeKey (keys : List InstanceID) (id : InstanceID) : List InstanceID :=
  if id ∈ keys then keys else id :: keys

structure SchedulerState where
  queue : List InstanceID
  runningSet : List InstanceID
  spawnedWorkers : List InstanceID
  activeWorkers : List InstanceID
deriving DecidableEq, Repr

/-- One atomic action of the engine's scheduler or of one of its worker
goroutines. -/
inductive SchedStep : SchedulerState → SchedulerState → Prop where
  /-- `Engine.QueueInstance` (part_006:102-110): non-blocking send into the
  buffered channel (capacity not modelled; a full queue only rejects the
  enqueue, which cannot create workers). -/
  | queueInstance (s : SchedulerState) (id : InstanceID) :
      SchedStep s { s with queue := s.queue ++ [id] }
  /-- Dispatcher receives `id`, `instances.Load(id)` finds it: skip
  (part_006:122-125). -/
  | dispatchSkip (s : SchedulerState) (id : InstanceID) (rest : List InstanceID)
      (hq : s.queue = id :: rest) (hr : id ∈ s.runningSet) :
      SchedStep s { s with queue := rest }
  /-- Dispatcher receives `id`, `instances.Load(id)` misses: spawn a
  `processInstance` goroutine (part_006:127-129).  The `Store` happens
  later, inside the spawned goroutine. -/
  | dispatchSpawn (s : SchedulerState) (id : InstanceID) (rest : List InstanceID)
      (hq : s.queue = id :: rest) (hr : id ∉ s.runningSet) :
      SchedStep s { s with queue := rest, spawnedWorkers := s.spawnedWorkers ++ [id] }
  /-- A spawned worker executes `e.instances.Store(instanceID, true)`
  (part_006:139) — an unconditional write, no re-check — and proceeds to
  advance the instance. -/
  | workerStore (s : SchedulerState) (id : InstanceID) (h : id ∈ s.spawnedWorkers) :
      SchedStep s
        { s with
            spawnedWorkers := s.spawnedWorkers.erase id
            runningSet := storeKey s.runningSet id
            activeWorkers := s.activeWorkers ++ [id] }
  /-- A worker returns: the deferred `instances.Delete(instanceID)`
  (part_006:140) removes the key. -/
  | workerFinish (s : SchedulerState) (id : InstanceID) (h : id ∈ s.activeWorkers) :
      SchedStep s
        { s with
            activeWorkers := s.activeWorkers.erase id
            runningSet := s.runningSet.erase id }

/-- The scheduler at engine start: nothing queued, no workers. -/
def schedInit : SchedulerState :=
  { queue := [], runningSet := [], spawnedWorkers := [], activeWorkers := [] }

/-- Number of goroutines currently executing `processInstance` for `id`. -/
def workersFor (s : SchedulerState) (id : InstanceID) : Nat :=
  s.spawnedWorkers.count id + s.activeWorkers.count id

/-! ## Spec-side predicates and concrete inputs used by the theorems -/

/-- "Both operands are numeric": the variable named by the condition's
field exists and is a number, and the condition's comparison value is a
number.  Used to state the claim about `gt`/`lt`. -/
def bothNumeric (c : StepCondition) (vars : JSONB) : Bool :=
  match lookupVar vars c.field with
  | some v => v.isNum && c.value.isNum
  | none => false

/-- "Both operands are strings", for the `contains` operator. -/
def bothString (c : StepCondition) (vars : JSONB) : Bool :=
  match lookupVar vars c.field with
  | some v => v.isStr && c.value.isStr
  | none => false

/-- No external actor touches the instance status during the run. -/
def extNone : Nat → Option WorkflowStatus := fun _ => none

/-- A condition step `B` testing `x > 5` with a single `next_steps` entry
`"C"`. -/
def c1condStep : WorkflowStepDefinition :=
  { id := "B", name := "gate", type := "condition", config := []
    nextSteps := ["C"]
    conditions := [{ field := "x", operator := "gt", value := .num 5 }]
    retryPolicy := none }

/-- A terminal logging step `C`. -/
def c1stepC : WorkflowStepDefinition :=
  { id := "C", name := "after gate", type := "action"
    config := [("action", .str "log_message"), ("message", .str "done")]
    nextSteps := [], conditions := [], retryPolicy := none }

/-- Variables under which `x > 5` fails. -/
def c1varsLow : JSONB := [("x", .num 1)]

/-- A fresh running instance of the `B → C` schema with `x = 1`. -/
def c1state : EngineState :=
  { inst := { id := 1, status := .running, vars := c1varsLow, currentStep := ""
              errorMessage := "", startedAt := some 0, completedAt := none }
    steps := [], trace := [] }

/-- Step `A`: a logging action whose single successor is `B`. -/
def c2stepA : WorkflowStepDefinition :=
  { id := "A", name := "log start", type := "action"
    config := [("action", .str "log_message"), ("message", .str "starting")]
    nextSteps := ["B"], conditions := [], retryPolicy := none }

/-- Step `B`: a terminal logging action. -/
def c2stepB : WorkflowStepDefinition :=
  { id := "B", name := "log end", type := "action"
    config := [("action", .str "log_message"), ("message", .str "ending")]
    nextSteps := [], conditions := [], retryPolicy := none }

/-- An external actor pauses the instance between step `A` (iteration 0)
and step `B` (iteration 1). -/
def c2pauseAfterFirst : Nat → Option WorkflowStatus :=
  fun k => if k = 1 then some WorkflowStatus.paused else none

/-- A fresh running instance of the `A → B` schema. -/
def c2state : EngineState :=
  { inst := { id := 3, status := .running, vars := [], currentStep := ""
              errorMessage := "", startedAt := some 0, completedAt := none }
    steps := [], trace := [] }

/-- A first-attempt step row found `running` past the step timeout. -/
def c3timedOutStep : WorkflowStep :=
  { instanceID := 1, stepID := "fetch", stepType := "action"
    status := .running, inputData := [], outputData := []
    errorData := none, startedAt := some 0, completedAt := none, retryCount := 0 }

/-- A `wait`-type step configured with `wait_type = "event"`. -/
def c4waitStep : WorkflowStepDefinition :=
  { id := "await_payment", name := "await payment", type := "wait"
    config := [("wait_type", .str "event"), ("event", .str "payment_received")]
    nextSteps := ["notify"], conditions := [], retryPolicy := none }

/-- The running instance owning the wait step. -/
def c4instance : WorkflowInstance :=
  { id := 2, status := .running, vars := [], currentStep := ""
    errorMessage := "", startedAt := some 0, completedAt := none }

/-- The six scheduler states of the racing trace: the same instance id 7
is enqueued twice, both dequeues pass the `instances.Load` check before
either worker has executed `instances.Store`, and both workers then store
and advance. -/
def c5s1 : SchedulerState := { queue := [7], runningSet := [], spawnedWorkers := [], activeWorkers := [] }

def c5s2 : SchedulerState := { queue := [7, 7], runningSet := [], spawnedWorkers := [], activeWorkers := [] }

def c5s3 : SchedulerState := { queue := [7], runningSet := [], spawnedWorkers := [7], activeWorkers := [] }

def c5s4 : SchedulerState := { queue := [], runningSet := [], spawnedWorkers := [7, 7], activeWorkers := [] }

def c5s5 : SchedulerState := { queue := [], runningSet := [7], spawnedWorkers := [7], activeWorkers := [7] }

def c5s6 : SchedulerState := { queue := [], runningSet := [7], spawnedWorkers := [], activeWorkers := [7, 7] }

/-- A single terminal logging step `A`. -/
def c6stepA : WorkflowStepDefinition :=
  { id := "A", name := "log", type := "action"
    config := [("action", .str "log_message"), ("message", .str "hello")]
    nextSteps := [], conditions := [], retryPolicy := none }

/-- The step row persisted for `A` by the crashed run: `completed`. -/
def c6completedRow : WorkflowStep :=
  { instanceID := 4, stepID := "A", stepType := "action"
    status := .completed, inputData := [], outputData := []
    errorData := none, startedAt := some 0, completedAt := some 1, retryCount := 0 }

/-- The restart state: `current_step` was persisted as `"A"` after `A`
completed, and the instance is `running` again. -/
def c6state : EngineState :=
  { inst := { id := 4, status := .running, vars := [], currentStep := "A"
              errorMessage := "", startedAt := some 0, completedAt := none }
    steps := [c6completedRow], trace := [] }

/-- A condition step with an empty condition list. -/
def c7emptyStep : WorkflowStepDefinition :=
  { id := "check", name := "check", type := "condition", config := []
    nextSteps := [], conditions := [], retryPolicy := none }

/-- A condition step with one `x > 5` predicate. -/
def c7gtStep : WorkflowStepDefinition :=
  { id := "check", name := "check", type := "condition", config := []
    nextSteps := []
    conditions := [{ field := "x", operator := "gt", value := .num 5 }]
    retryPolicy := none }

/-- A `gt` condition whose comparison value is a string, so the operands
are not both numeric. -/
def c7mismatchCond : StepCondition :=
  { field := "x", operator := "gt", value := .str "5" }

/-- A fresh running instance used to restart the orchestration loop. -/
def c9state : EngineState :=
  { inst := { id := 5, status := .running, vars := [], currentStep := ""
              errorMessage := "", startedAt := some 0, completedAt := none }
    steps := [], trace := [] }

/-- A condition on a field that is absent from the variables. -/
def c10cond : StepCondition :=
  { field := "missing", operator := "eq", value := .num 1 }

/-- A condition step whose only predicate reads the absent field. -/
def c10step : WorkflowStepDefinition :=
  { id := "check", name := "check", type := "condition", config := []
    nextSteps := [], conditions := [c10cond], retryPolicy := none }

/-! ## Helper lemmas -/

/-- The short-circuiting condition loop computes exactly the conjunction
of the individual predicate evaluations. -/
theorem evalConditionList_success (conditions : List StepCondition) (vars : JSONB) :
    (evalConditionList conditions vars).success =
      conditions.all (fun c => evaluateCondition c vars) := by
  induction conditions with
  | nil => rfl
  | cons c rest ih =>
    by_cases h : evaluateCondition c vars
    · simp [evalConditionList, h, ih]
    · simp [evalConditionList, h]

/-- The orchestration loop only appends to the execution trace. -/
theorem workflowLoop_trace_prefix (ext : Nat → Option WorkflowStatus)
    (schema : WorkflowSchema) (now : Nat) :
    ∀ (fuel k : Nat) (st : EngineState) (cur : String),
      ∃ more, (workflowLoop ext schema now fuel k st cur).1.trace = st.trace ++ more := by
  intro fuel
  induction fuel with
  | zero => intro k st cur; exact ⟨[], by simp [workflowLoop]⟩
  | succ n ih =>
    intro k st cur
    have htr : (applyExternal ext k st).trace = st.trace := by
      unfold applyExternal; cases ext k <;> rfl
    simp only [workflowLoop]
    generalize hg : applyExternal ext k st = st1 at htr
    by_cases hs : st1.inst.status ≠ WorkflowStatus.running
    · refine ⟨[], ?_⟩
      rw [if_pos hs]
      simpa using htr
    · rw [if_neg hs]
      cases hdef : findStepDefinition schema cur with
      | none => exact ⟨[], by simpa using htr⟩
      | some stepDef =>
        cases herr : (ExecuteStep st1.inst stepDef st1.steps now).err with
        | some msg =>
          refine ⟨[cur], ?_⟩
          simp only [herr]
          simpa using htr
        | none =>
          simp only [herr]
          by_cases hnext :
              determineNextStep stepDef (ExecuteStep st1.inst stepDef st1.steps now).result = ""
          · refine ⟨[cur], ?_⟩
            rw [if_pos hnext]
            simpa using htr
          · rw [if_neg hnext]
            obtain ⟨more2, hm⟩ := ih (k + 1) _ _
            refine ⟨[cur] ++ more2, ?_⟩
            rw [hm]
            simp [htr]

/-! ## Claim theorems -/

/-- Claim C1, counterexample.  Schema `B → C` where `B` is a condition
step testing `x > 5` with the single next entry `"C"`, variables `x = 1`:
the predicate fails, yet the run executes `C` (trace `["B", "C"]`) — the
single next entry IS taken, contradicting "the single next entry is not
taken" and "the workflow ends at that branch". -/
theorem C1_counterexample :
    (evalConditionList c1condStep.conditions c1varsLow).success = false ∧
    determineNextStep c1condStep (evalConditionList c1condStep.conditions c1varsLow) = "C" ∧
    (processInstance extNone [c1condStep, c1stepC] 5 10 c1state).trace = ["B", "C"] :=
  ⟨rfl, rfl, rfl⟩

/-- Claim C1 as amended: for a condition step with a failing predicate and
exactly one `next_steps` entry, next-step resolution returns that entry
unconditionally (the branch is followed, not ended); the workflow ends at
a branch only when `next_steps` is empty, and ending a branch completes
the Instance with status `completed`, never `failed`. -/
theorem C1_single_next_taken (stepDef : WorkflowStepDefinition) (result : StepResult)
    (inst : WorkflowInstance) (now : Nat) (n : String)
    (htype : stepDef.type = "condition") (hfail : result.success = false)
    (hnext : stepDef.nextSteps = [n]) :
    determineNextStep stepDef result = n ∧
    (∀ d2 : WorkflowStepDefinition, d2.nextSteps = [] → determineNextStep d2 result = "") ∧
    (completeInstance inst now).status = WorkflowStatus.completed := by
  refine ⟨?_, ?_, rfl⟩
  · simp [determineNextStep, hnext]
  · intro d2 h2
    simp [determineNextStep, h2]

/-- Claim C1 witness: the amended statement at the concrete failing input. -/
theorem C1_witness :
    c1condStep.type = "condition" ∧ c1condStep.nextSteps = ["C"] ∧
    determineNextStep c1condStep { success := false, data := [], error := "" } = "C" :=
  ⟨rfl, rfl,
    (C1_single_next_taken c1condStep { success := false, data := [], error := "" }
      c1state.inst 0 "C" rfl rfl rfl).1⟩

/-- Claim C2: an external actor sets the instance to `paused` between step
`A` and step `B`; `checkInstanceStatus` returns an error, `executeWorkflow`
propagates it, and `processInstance` calls `failInstance`: the instance
does NOT keep the externally-set status — it ends `failed` with an
error_message recorded, contradicting "aborts without error". -/
theorem C2_pause_turns_failed :
    (processInstance c2pauseAfterFirst [c2stepA, c2stepB] 4 10 c2state).inst.status =
      WorkflowStatus.failed ∧
    (processInstance c2pauseAfterFirst [c2stepA, c2stepB] 4 10 c2state).inst.errorMessage =
      "workflow instance status changed to paused" :=
  ⟨rfl, rfl⟩

/-- Claim C3: `HandleStepTimeout` never consults a retry policy (the
source hardcodes `retryPolicy = nil`), so EVERY timed-out step — retry
count below any policy maximum or not — is marked `failed`, its retry
count is never incremented, it is never reset to `pending`, and the
owning instance (not even passed to the function) is never transitioned. -/
theorem C3_timeout_always_fails (step : WorkflowStep) (now : Nat) :
    (HandleStepTimeout step now).status = StepStatus.failed ∧
    (HandleStepTimeout step now).retryCount = step.retryCount :=
  ⟨rfl, rfl⟩

/-- Claim C4: executing a `wait`-on-event step does NOT leave the step
`running` waiting for the event — the source stub returns success after a
simulated delay, `ExecuteStep` marks the step row `completed`, and the
orchestration loop advances immediately without any event being
published. -/
theorem C4_wait_event_completes_immediately :
    (ExecuteStep c4instance c4waitStep [] 7).step.status = StepStatus.completed ∧
    (ExecuteStep c4instance c4waitStep [] 7).result.success = true ∧
    (ExecuteStep c4instance c4waitStep [] 7).err = none :=
  ⟨rfl, rfl, rfl⟩

/-- Claim C8: for every instance, step definition (any `type` string,
including unknown ones), pre-existing step rows and clock, `ExecuteStep`
returns with the step row in a terminal status — `completed` on executor
success, `failed` on executor error — never `pending` or `running`
(durable-store writes are assumed to succeed in the embedding). -/
theorem C8_step_terminal (inst : WorkflowInstance) (stepDef : WorkflowStepDefinition)
    (steps : List WorkflowStep) (now : Nat) :
    (ExecuteStep inst stepDef steps now).step.status = StepStatus.completed ∨
    (ExecuteStep inst stepDef steps now).step.status = StepStatus.failed := by
  unfold ExecuteStep
  cases executeStepByType stepDef inst.vars with
  | error msg => exact Or.inr rfl
  | ok p => exact Or.inl rfl

/-- Claim C9: running `processInstance` on a `running` instance whose
parsed schema has zero steps immediately completes the instance
(`completed`, `completed_at` set) and neither executes a step nor touches
the step rows. -/
theorem C9_empty_schema_completes (ext : Nat → Option WorkflowStatus)
    (now fuel : Nat) (st : EngineState)
    (hrun : st.inst.status = WorkflowStatus.running) :
    (processInstance ext [] now fuel st).inst.status = WorkflowStatus.completed ∧
    (processInstance ext [] now fuel st).inst.completedAt = some now ∧
    (processInstance ext [] now fuel st).trace = st.trace ∧
    (processInstance ext [] now fuel st).steps = st.steps := by
  refine ⟨?_, ?_, ?_, ?_⟩ <;> simp [processInstance, executeWorkflow, completeInstance, hrun]

/-- Claim C9 witness: the empty-schema completion at a concrete running
instance. -/
theorem C9_witness :
    c9state.inst.status = WorkflowStatus.running ∧
    (processInstance extNone [] 3 10 c9state).inst.status = WorkflowStatus.completed ∧
    (processInstance extNone [] 3 10 c9state).inst.completedAt = some 3 ∧
    (processInstance extNone [] 3 10 c9state).trace = [] ∧
    (processInstance extNone [] 3 10 c9state).steps = [] := by
  have h := C9_empty_schema_completes extNone 3 10 c9state rfl
  exact ⟨rfl, h.1, h.2.1, h.2.2.1, h.2.2.2⟩

/-- Claim C10: a condition predicate whose field is absent from the
variables evaluates to `false` for every operator, and a condition step
containing such a predicate returns a failure result (`success = false`)
through the error-free return path (`.ok`, the Go error is nil). -/
theorem C10_absent_field (c : StepCondition) (vars : JSONB)
    (stepDef : WorkflowStepDefinition)
    (habs : lookupVar vars c.field = none) (hmem : c ∈ stepDef.conditions) :
    evaluateCondition c vars = false ∧
    ∃ r, executeConditionStep stepDef vars = Except.ok r ∧ r.success = false := by
  have heval : evaluateCondition c vars = false := by
    unfold evaluateCondition
    rw [habs]
  refine ⟨heval, evalConditionList stepDef.conditions vars, ?_, ?_⟩
  · rcases hcs : stepDef.conditions with _ | ⟨c0, cs⟩
    · rw [hcs] at hmem
      cases hmem
    · simp [executeConditionStep, hcs]
  · rw [evalConditionList_success]
    rcases hall : stepDef.conditions.all (fun x => evaluateCondition x vars) with _ | _
    · rfl
    · have := List.all_eq_true.mp hall c hmem
      rw [heval] at this
      cases this

/-- Claim C10 witness: the absent-field predicate at a concrete input. -/
theorem C10_witness :
    lookupVar [] c10cond.field = none ∧
    evaluateCondition c10cond [] = false ∧
    ∃ r, executeConditionStep c10step [] = Except.ok r ∧ r.success = false := by
  have h := C10_absent_field c10cond [] c10step rfl (by simp [c10step])
  exact ⟨rfl, h.1, h.2⟩

/-- Claim C5: the single-writer invariant is violated in an admissible
interleaving.  Instance id 7 is enqueued twice (duplicate wake-ups are
expected); the dispatcher's `instances.Load` check passes for BOTH
dequeues because neither spawned goroutine has executed its
`instances.Store` yet (the check in `processQueue` and the mark in
`processInstance` are not one atomic operation); both workers then store
and advance the same instance: a reachable scheduler state has two
goroutines concurrently executing `processInstance` for id 7. -/
theorem C5_two_workers_reachable :
    ∃ s : SchedulerState,
      Relation.ReflTransGen SchedStep schedInit s ∧ workersFor s 7 = 2 := by
  have h1 : SchedStep schedInit c5s1 := SchedStep.queueInstance schedInit 7
  have h2 : SchedStep c5s1 c5s2 := SchedStep.queueInstance c5s1 7
  have h3 : SchedStep c5s2 c5s3 :=
    SchedStep.dispatchSpawn c5s2 7 [7] rfl (by decide)
  have h4 : SchedStep c5s3 c5s4 :=
    SchedStep.dispatchSpawn c5s3 7 [] rfl (by decide)
  have h5 : SchedStep c5s4 c5s5 := SchedStep.workerStore c5s4 7 (by decide)
  have h6 : SchedStep c5s5 c5s6 := SchedStep.workerStore c5s5 7 (by decide)
  refine ⟨c5s6, ?_, rfl⟩
  exact ((((Relation.ReflTransGen.single h1).tail h2).tail h3).tail h4).tail h5 |>.tail h6

/-- On a `running` instance, `processInstance` returns the loop's final
state with at most the instance row rewritten (`failInstance` on an
errored run); the step rows and the execution trace are the loop's. -/
theorem processInstance_trace (ext : Nat → Option WorkflowStatus) (schema : WorkflowSchema)
    (now fuel : Nat) (st : EngineState)
    (hrun : st.inst.status = WorkflowStatus.running) :
    (processInstance ext schema now fuel st).trace =
      (executeWorkflow ext schema now fuel st).1.trace := by
  simp only [processInstance]
  rw [if_neg (by simp [hrun])]
  rcases h : executeWorkflow ext schema now fuel st with ⟨stR, res⟩
  cases res <;> simp [failInstance]

/-- A restarted loop's first executed step is exactly the persisted
`current_step` (when the run gets as far as executing anything at all:
fuel available, no concurrent status write before the first check, and the
id resolvable in the schema). -/
theorem executeWorkflow_resume_trace (ext : Nat → Option WorkflowStatus)
    (schema : WorkflowSchema) (now fuel : Nat) (st : EngineState)
    (hrun : st.inst.status = WorkflowStatus.running)
    (hcur : st.inst.currentStep ≠ "")
    (htrace : st.trace = [])
    (hext : ext 0 = none)
    (hfuel : fuel ≠ 0)
    (hdef : ∃ d, findStepDefinition schema st.inst.currentStep = some d)
    (hschema : schema ≠ []) :
    ∃ rest, (executeWorkflow ext schema now fuel st).1.trace =
      st.inst.currentStep :: rest := by
  rcases hsch : schema with _ | ⟨s0, ss⟩
  · exact absurd hsch hschema
  subst hsch
  rcases Nat.exists_eq_succ_of_ne_zero hfuel with ⟨m, rfl⟩
  simp only [executeWorkflow]
  rw [if_neg hcur]
  simp only [workflowLoop]
  have hae : applyExternal ext 0 st = st := by
    unfold applyExternal
    rw [hext]
  rw [hae]
  rw [if_neg (by simp [hrun])]
  obtain ⟨d, hd⟩ := hdef
  rw [hd]
  dsimp only
  cases herr : (ExecuteStep st.inst d st.steps now).err with
  | some msg =>
    refine ⟨[], ?_⟩
    simp [htrace]
  | none =>
    by_cases hnext :
        determineNextStep d (ExecuteStep st.inst d st.steps now).result = ""
    · refine ⟨[], ?_⟩
      simp only []
      rw [if_pos hnext]
      simp [completeInstance, htrace]
    · simp only []
      rw [if_neg hnext]
      obtain ⟨more, hm⟩ := workflowLoop_trace_prefix ext (s0 :: ss) now m 1 _ _
      refine ⟨more, ?_⟩
      rw [hm]
      simp [htrace]

/-- Claim C6, counterexample.  One-step schema `A`; the crashed run
persisted `current_step = "A"` after `A`'s row reached `completed`; on
restart the loop executes `A` again (trace `["A"]`), so the step recorded
in `current_step` IS executed a second time. -/
theorem C6_counterexample :
    c6state.inst.currentStep = "A" ∧
    (findWorkflowStep c6state.steps 4 "A").map (fun s => s.status) =
      some StepStatus.completed ∧
    (processInstance extNone [c6stepA] 9 10 c6state).trace = ["A"] :=
  ⟨rfl, rfl, rfl⟩

/-- Claim C6 as amended: restarting the orchestration loop resumes AT the
step recorded in `current_step` — that step is the first one executed
again (at-least-once semantics); earlier steps are not revisited, but the
recorded step itself IS re-executed rather than skipped. -/
theorem C6_resume_reexecutes_current (ext : Nat → Option WorkflowStatus)
    (schema : WorkflowSchema) (now fuel : Nat) (st : EngineState)
    (hrun : st.inst.status = WorkflowStatus.running)
    (hcur : st.inst.currentStep ≠ "")
    (htrace : st.trace = [])
    (hext : ext 0 = none)
    (hfuel : fuel ≠ 0)
    (hdef : ∃ d, findStepDefinition schema st.inst.currentStep = some d)
    (hschema : schema ≠ []) :
    ∃ rest, (processInstance ext schema now fuel st).trace =
      st.inst.currentStep :: rest := by
  obtain ⟨rest, hr⟩ :=
    executeWorkflow_resume_trace ext schema now fuel st hrun hcur htrace hext hfuel hdef hschema
  rw [processInstance_trace ext schema now fuel st hrun]
  exact ⟨rest, hr⟩

/-- Claim C6 witness: the amended resume behaviour at the concrete
restart state. -/
theorem C6_witness :
    c6state.inst.status = WorkflowStatus.running ∧
    ∃ rest, (processInstance extNone [c6stepA] 9 10 c6state).trace =
      c6state.inst.currentStep :: rest :=
  ⟨rfl,
    C6_resume_reexecutes_current extNone [c6stepA] 9 10 c6state rfl (by decide) rfl rfl
      (by decide) ⟨c6stepA, rfl⟩ (List.cons_ne_nil c6stepA [])⟩

/-- Claim C7, counterexample.  With an empty condition list the code
returns `success = false` (with the error text `"no conditions defined"`),
while the claim's conjunction over the empty list is `true`. -/
theorem C7_counterexample :
    executeConditionStep c7emptyStep [] =
      Except.ok { success := false, data := [], error := "no conditions defined" } ∧
    List.all ([] : List StepCondition) (fun c => evaluateCondition c []) = true :=
  ⟨rfl, rfl⟩

/-- Claim C7 as amended: for a NON-EMPTY condition list, the condition
step's result success equals the conjunction (AND) of all predicate
evaluations against the variables, where a `gt`/`lt` predicate is `false`
— not an error — unless both operands are numeric, and a `contains`
predicate is `false` unless both operands are strings; an empty condition
list yields `success = false` with the error text instead of the empty
conjunction `true`. -/
theorem C7_condition_semantics (stepDef : WorkflowStepDefinition) (vars : JSONB)
    (c : StepCondition) (hne : stepDef.conditions ≠ []) :
    (∃ r, executeConditionStep stepDef vars = Except.ok r ∧
        r.success = stepDef.conditions.all (fun x => evaluateCondition x vars)) ∧
    ((c.operator = "gt" ∨ c.operator = "greater_than" ∨
      c.operator = "lt" ∨ c.operator = "less_than") →
        bothNumeric c vars = false → evaluateCondition c vars = false) ∧
    (c.operator = "contains" →
        bothString c vars = false → evaluateCondition c vars = false) := by
  refine ⟨?_, ?_, ?_⟩
  · refine ⟨evalConditionList stepDef.conditions vars, ?_, evalConditionList_success _ _⟩
    rcases hcs : stepDef.conditions with _ | ⟨c0, cs⟩
    · exact absurd hcs hne
    · simp [executeConditionStep, hcs]
  · intro hop hnum
    unfold evaluateCondition
    unfold bothNumeric at hnum
    rcases hlk : lookupVar vars c.field with _ | v
    · rfl
    · rw [hlk] at hnum
      rcases hop with h | h | h | h <;> rw [h] <;>
        cases v <;> cases hv : c.value <;>
          simp_all [Value.asNumber, Value.isNum]
  · intro hop hstr
    unfold evaluateCondition
    unfold bothString at hstr
    rcases hlk : lookupVar vars c.field with _ | v
    · rfl
    · rw [hlk] at hstr
      rw [hop]
      cases v <;> cases hv : c.value <;>
        simp_all [Value.asString, Value.isStr]

/-- Claim C7 witness: the amended semantics at a concrete one-predicate
condition list whose `gt` comparison value is a string (operands not both
numeric). -/
theorem C7_witness :
    c7gtStep.conditions ≠ [] ∧
    (∃ r, executeConditionStep c7gtStep [("x", Value.num 10)] = Except.ok r ∧
        r.success =
          c7gtStep.conditions.all (fun x => evaluateCondition x [("x", Value.num 10)])) ∧
    (c7mismatchCond.operator = "gt" →
        bothNumeric c7mismatchCond [("x", Value.num 10)] = false →
        evaluateCondition c7mismatchCond [("x", Value.num 10)] = false) := by
  have h := C7_condition_semantics c7gtStep [("x", Value.num 10)] c7mismatchCond
    (List.cons_ne_nil _ _)
  exact ⟨List.cons_ne_nil _ _, h.1, fun hop hnum => h.2.1 (Or.inl hop) hnum⟩

end Chorus
